import Mathlib

/-!
Verification development for the ClickHouse field-visitor core
(`dbms/src/Common/FieldVisitors.h`) and the profile-event counter registry
(`dbms/include/DB/Common/ProfileEvents.h`).

The C++ `Field` tagged union and its visitors are shallowly embedded:
machine integers become `Nat`/`Int` with explicit `% 2^w` where overflow
matters, IEEE doubles become an explicit sum of finite rationals, the two
infinities and NaN, and every throwing code path returns `Except Err`.
-/

namespace ClickHouse

/-- Error taxonomy of the visitors: each constructor corresponds to one
`ErrorCodes::` value raised in `FieldVisitors.h`, carrying the message the
code builds.  `cannotParseUUID` stands for the parse failure propagated out
of `stringToUUID`. -/
inductive Err where
  | cannotConvertType (msg : String)
  | badTypeOfField (msg : String)
  | typeMismatch (msg : String)
  | valueOutOfRange (msg : String)
  | logicalError (msg : String)
  | cannotParseUUID (s : String)
  | notImplemented (msg : String)
deriving DecidableEq, Repr

/-- An exact fraction `num / den` (with `den` positive wherever a value is
built), used to carry the exact value of a finite double.  Comparisons are
by cross-multiplication, so no normalization is ever needed. -/
structure Frac where
  num : ℤ
  den : ℕ
deriving DecidableEq, Repr

/-- Exact value equality of two fractions. -/
def Frac.feq (a b : Frac) : Bool :=
  a.num * (b.den : ℤ) == b.num * (a.den : ℤ)

/-- Exact value order of two fractions (with positive denominators). -/
def Frac.flt (a b : Frac) : Bool :=
  decide (a.num * (b.den : ℤ) < b.num * (a.den : ℤ))

/-- The fraction holding the integer `i`. -/
def Frac.ofInt (i : ℤ) : Frac :=
  ⟨i, 1⟩

/-- Model of a 64-bit IEEE floating value as far as the visitors observe
it: a finite value (carried exactly as a fraction), the two infinities, or
NaN.  The comparison operators below follow IEEE-754 semantics, which is
what the C++ `==` and `<` on `Float64` compute. -/
inductive Float64 where
  | finite (q : Frac)
  | inf
  | negInf
  | nan
deriving DecidableEq, Repr

/-- IEEE equality on doubles: NaN compares unequal to everything, including
itself; the embedding of `l == r` for two `Float64` operands. -/
def Float64.beq : Float64 → Float64 → Bool
  | .finite a, .finite b => a.feq b
  | .inf, .inf => true
  | .negInf, .negInf => true
  | _, _ => false

/-- IEEE strict order on doubles: any comparison with NaN is false;
the embedding of `l < r` for two `Float64` operands. -/
def Float64.blt : Float64 → Float64 → Bool
  | .finite a, .finite b => a.flt b
  | .finite _, .inf => true
  | .negInf, .finite _ => true
  | .negInf, .inf => true
  | _, _ => false

/-- Precision class of a `DecimalField` payload: `Decimal32`, `Decimal64`
or `Decimal128`. -/
inductive DecPrec where
  | p32
  | p64
  | p128
deriving DecidableEq, Repr

mutual

/-- The `Field` tagged union (`Core/Field.h`), as dispatched over by
`FieldVisitors.h`: exactly the eleven payload kinds the visitors handle.
`uint` carries `UInt64`, `int` carries `Int64`, `uint128` a 128-bit value,
`decimal p v s` a `DecimalField` of precision class `p` with integer
magnitude `v` and scale `s` (value = v / 10^s), `aggState` an
`AggregateFunctionStateData` (aggregate function name plus state bytes). -/
inductive Field where
  | null
  | uint (u : ℕ)
  | int (i : ℤ)
  | float (f : Float64)
  | uint128 (u : ℕ)
  | str (s : String)
  | array (xs : FieldList)
  | tuple (xs : FieldList)
  | decimal (p : DecPrec) (v : ℤ) (s : ℕ)
  | aggState (name : String) (data : String)

/-- Elements of an `Array`/`Tuple` payload (a `std::vector<Field>`). -/
inductive FieldList where
  | nil
  | cons (x : Field) (xs : FieldList)

end

/-- The kind tag of a field (`Field::Types::Which`). -/
inductive FieldKind where
  | null
  | uint
  | int
  | float
  | uint128
  | str
  | array
  | tuple
  | decimal
  | aggState
deriving DecidableEq, Repr

/-- The kind of the active payload. -/
def Field.kind : Field → FieldKind
  | .null => .null
  | .uint _ => .uint
  | .int _ => .int
  | .float _ => .float
  | .uint128 _ => .uint128
  | .str _ => .str
  | .array _ => .array
  | .tuple _ => .tuple
  | .decimal _ _ _ => .decimal
  | .aggState _ _ => .aggState

/-- Demangled type name of the payload type of a kind, as the
`demangle(typeid(T).name())` calls in the error messages produce it
(modelled with the short structural names). -/
def FieldKind.typeName : FieldKind → String
  | .null => "Null"
  | .uint => "UInt64"
  | .int => "Int64"
  | .float => "Float64"
  | .uint128 => "UInt128"
  | .str => "String"
  | .array => "Array"
  | .tuple => "Tuple"
  | .decimal => "DecimalField"
  | .aggState => "AggregateFunctionStateData"

/-- Modelled from the spec: the accurate numeric comparator
(`Core/AccurateComparison.h`, not under src/).  Per §4.2 it returns the
mathematically correct equality for every representable unsigned-64 /
float pair; a NaN operand compares unequal (IEEE). -/
def equalsOpUF (n : ℕ) (f : Float64) : Bool :=
  match f with
  | .finite q => (Frac.ofInt n).feq q
  | _ => false

/-- Modelled from the spec: accurate `less` between an unsigned 64-bit
integer and a float (`Core/AccurateComparison.h`, not under src/):
mathematically correct order; comparisons against NaN are false (IEEE). -/
def lessOpUF (n : ℕ) (f : Float64) : Bool :=
  match f with
  | .finite q => (Frac.ofInt n).flt q
  | .inf => true
  | _ => false

/-- Modelled from the spec: accurate `less` between a float and an
unsigned 64-bit integer (`Core/AccurateComparison.h`, not under src/). -/
def lessOpFU (f : Float64) (n : ℕ) : Bool :=
  match f with
  | .finite q => q.flt (Frac.ofInt n)
  | .negInf => true
  | _ => false

/-- Modelled from the spec: accurate equality between a signed 64-bit
integer and a float (`Core/AccurateComparison.h`, not under src/). -/
def equalsOpIF (i : ℤ) (f : Float64) : Bool :=
  match f with
  | .finite q => (Frac.ofInt i).feq q
  | _ => false

/-- Modelled from the spec: accurate `less` between a signed 64-bit
integer and a float (`Core/AccurateComparison.h`, not under src/). -/
def lessOpIF (i : ℤ) (f : Float64) : Bool :=
  match f with
  | .finite q => (Frac.ofInt i).flt q
  | .inf => true
  | _ => false

/-- Modelled from the spec: accurate `less` between a float and a signed
64-bit integer (`Core/AccurateComparison.h`, not under src/). -/
def lessOpFI (f : Float64) (i : ℤ) : Bool :=
  match f with
  | .finite q => q.flt (Frac.ofInt i)
  | .negInf => true
  | _ => false

/-- Modelled from the spec: `DecimalField` equality after scale alignment
(§3: two decimal values compare by normalizing to a common representation
before magnitude comparison; `Core/Field.h` is not under src/).
`v1 / 10^s1 = v2 / 10^s2` iff `v1 * 10^s2 = v2 * 10^s1`. -/
def decEq (v1 : ℤ) (s1 : ℕ) (v2 : ℤ) (s2 : ℕ) : Bool :=
  v1 * (10 : ℤ) ^ s2 == v2 * (10 : ℤ) ^ s1

/-- Modelled from the spec: `DecimalField` strict order after scale
alignment (`Core/Field.h`, not under src/). -/
def decLt (v1 : ℤ) (s1 : ℕ) (v2 : ℤ) (s2 : ℕ) : Bool :=
  v1 * (10 : ℤ) ^ s2 < v2 * (10 : ℤ) ^ s1

/-- One hexadecimal digit to its value. -/
def hexDigit? (c : Char) : Option ℕ :=
  if ('0' ≤ c ∧ c ≤ '9') then some (c.toNat - '0'.toNat)
  else if ('a' ≤ c ∧ c ≤ 'f') then some (c.toNat - 'a'.toNat + 10)
  else if ('A' ≤ c ∧ c ≤ 'F') then some (c.toNat - 'A'.toNat + 10)
  else none

/-- Fold a list of characters as hex digits, `none` on a non-hex digit. -/
def parseHex : List Char → ℕ → Option ℕ
  | [], acc => some acc
  | c :: cs, acc =>
    match hexDigit? c with
    | some d => parseHex cs (acc * 16 + d)
    | none => none

/-- Modelled from the spec: `stringToUUID` (declared in
`FieldVisitors.h` line 22, defined outside src/).  Per §4.6 the text is
interpreted as a UUID string and parsed into a 128-bit value, failing if
unparseable: the canonical 36-character form, 32 hex digits with hyphens
at positions 8, 13, 18 and 23. -/
def stringToUUID (s : String) : Except Err ℕ :=
  let cs := s.toList
  if cs.length = 36 ∧
      cs.get? 8 = some '-' ∧ cs.get? 13 = some '-' ∧
      cs.get? 18 = some '-' ∧ cs.get? 23 = some '-' then
    match parseHex (cs.filter (· ≠ '-')) 0 with
    | some v => .ok v
    | none => .error (.cannotParseUUID s)
  else .error (.cannotParseUUID s)

/-- Modelled from the spec: accurate equality between an unsigned and a
signed 64-bit integer (`Core/AccurateComparison.h`, not under src/):
exact mathematical comparison, no precision loss. -/
def equalsOpUI (u : ℕ) (i : ℤ) : Bool :=
  (u : ℤ) == i

/-- Modelled from the spec: accurate `less` between an unsigned and a
signed 64-bit integer (`Core/AccurateComparison.h`, not under src/). -/
def lessOpUI (u : ℕ) (i : ℤ) : Bool :=
  decide ((u : ℤ) < i)

/-- Modelled from the spec: accurate `less` between a signed and an
unsigned 64-bit integer (`Core/AccurateComparison.h`, not under src/). -/
def lessOpIU (i : ℤ) (u : ℕ) : Bool :=
  decide (i < (u : ℤ))

/-- The message built by the `cantCompare` helpers of both accurate
visitors: `"Cannot compare " + demangle(typeid(T).name()) + " with "
+ demangle(typeid(U).name())`. -/
def cantCompareMsg (t u : FieldKind) : String :=
  "Cannot compare " ++ t.typeName ++ " with " ++ u.typeName

/-- Length of a field list. -/
def FieldList.length : FieldList → ℕ
  | .nil => 0
  | .cons _ xs => xs.length + 1

mutual

/-- Modelled from the spec: `Field::operator==` (`Core/Field.h`, not
under src/), used elementwise by the visitors on `Array`/`Tuple`
payloads.  Same-kind payloads compare structurally (§3); a kind mismatch
between elements is a comparison error, not an automatic unequal. -/
def fieldEq : Field → Field → Except Err Bool
  | .null, .null => .ok true
  | .uint a, .uint b => .ok (a == b)
  | .int a, .int b => .ok (a == b)
  | .float a, .float b => .ok (a.beq b)
  | .uint128 a, .uint128 b => .ok (a == b)
  | .str a, .str b => .ok (a == b)
  | .array a, .array b =>
    if a.length = b.length then fieldListEqAligned a b else .ok false
  | .tuple a, .tuple b =>
    if a.length = b.length then fieldListEqAligned a b else .ok false
  | .decimal p1 v1 s1, .decimal p2 v2 s2 =>
    if p1 = p2 then .ok (decEq v1 s1 v2 s2)
    else .error (.badTypeOfField (cantCompareMsg .decimal .decimal))
  | .aggState n1 d1, .aggState n2 d2 => .ok (n1 == n2 && d1 == d2)
  | l, r => .error (.badTypeOfField (cantCompareMsg l.kind r.kind))

/-- Elementwise equality of two equal-length field lists
(the element loop of `std::vector<Field>::operator==`: left to right,
stopping at the first unequal pair; an element error propagates). -/
def fieldListEqAligned : FieldList → FieldList → Except Err Bool
  | .nil, _ => .ok true
  | .cons _ _, .nil => .ok true
  | .cons x xs, .cons y ys =>
    match fieldEq x y with
    | .ok true => fieldListEqAligned xs ys
    | .ok false => .ok false
    | .error e => .error e

/-- Modelled from the spec: the three-way elementwise comparison behind
`Field::operator<` (`Core/Field.h`, not under src/), used on
`Array`/`Tuple` elements.  `std::lexicographical_compare` asks `x < y`
and then `y < x` at each position; this single pass returns `lt`, `gt`,
or `eq` (`eq` meaning neither is below, which for a NaN pair is how IEEE
order behaves), with identical observable behavior.  Same-kind payloads
order structurally; `AggregateFunctionStateData` has no order (the
comparison throws); a kind mismatch is a comparison error. -/
def fieldOrd : Field → Field → Except Err Ordering
  | .null, .null => .ok .eq
  | .uint a, .uint b => .ok (if a < b then .lt else if b < a then .gt else .eq)
  | .int a, .int b => .ok (if a < b then .lt else if b < a then .gt else .eq)
  | .float a, .float b =>
    .ok (if a.blt b then .lt else if b.blt a then .gt else .eq)
  | .uint128 a, .uint128 b => .ok (if a < b then .lt else if b < a then .gt else .eq)
  | .str a, .str b =>
    .ok (if a < b then .lt else if b < a then .gt else .eq)
  | .array a, .array b => fieldListOrd a b
  | .tuple a, .tuple b => fieldListOrd a b
  | .decimal p1 v1 s1, .decimal p2 v2 s2 =>
    if p1 = p2 then
      .ok (if decLt v1 s1 v2 s2 then .lt else if decLt v2 s2 v1 s1 then .gt else .eq)
    else .error (.badTypeOfField (cantCompareMsg .decimal .decimal))
  | .aggState _ _, .aggState _ _ =>
    .error (.notImplemented "Operator less is not implemented for AggregateFunctionStateData")
  | l, r => .error (.badTypeOfField (cantCompareMsg l.kind r.kind))

/-- Modelled from the spec: lexicographic order on `std::vector<Field>`
(`std::lexicographical_compare`, three-way form): the first strictly
ordered position decides; a shorter list that is a prefix of the longer
is below; an element comparison error propagates. -/
def fieldListOrd : FieldList → FieldList → Except Err Ordering
  | .nil, .nil => .ok .eq
  | .nil, .cons _ _ => .ok .lt
  | .cons _ _, .nil => .ok .gt
  | .cons x xs, .cons y ys =>
    match fieldOrd x y with
    | .ok .lt => .ok .lt
    | .ok .gt => .ok .gt
    | .ok .eq => fieldListOrd xs ys
    | .error e => .error e

end

/-- Modelled from the spec: `std::vector<Field>::operator==`: sizes are
compared first, then elements left to right; used by the visitors on two
`Array` or two `Tuple` payloads. -/
def fieldListEq (a b : FieldList) : Except Err Bool :=
  if a.length = b.length then fieldListEqAligned a b else .ok false

/-- Modelled from the spec: `Field::operator<` on `Array`/`Tuple`
elements: the strict order derived from `fieldOrd`. -/
def fieldLess (a b : Field) : Except Err Bool :=
  (fieldOrd a b).map (fun o => o == .lt)

/-- `l < r` on two `std::vector<Field>` payloads
(`std::lexicographical_compare`). -/
def fieldListLt (a b : FieldList) : Except Err Bool :=
  (fieldListOrd a b).map (fun o => o == .lt)

/-- `applyVisitor(FieldVisitorAccurateEquals(), l, r)`
(`FieldVisitors.h` lines 179-285): the precision-safe cross-kind
equality matrix.  Each arm embeds the corresponding `operator()`
overload; `cantCompare` returns `false` when the right-hand side is
`Null` and otherwise raises `BAD_TYPE_OF_FIELD` with the two demangled
type names. -/
def accurateEquals : Field → Field → Except Err Bool
  | .uint _, .null => .ok false
  | .uint l, .uint r => .ok (l == r)
  | .uint _, .uint128 _ => .error (.badTypeOfField (cantCompareMsg .uint .uint128))
  | .uint l, .int r => .ok (equalsOpUI l r)
  | .uint l, .float r => .ok (equalsOpUF l r)
  | .uint _, .str _ => .error (.badTypeOfField (cantCompareMsg .uint .str))
  | .uint _, .array _ => .error (.badTypeOfField (cantCompareMsg .uint .array))
  | .uint _, .tuple _ => .error (.badTypeOfField (cantCompareMsg .uint .tuple))
  | .uint _, .aggState _ _ => .error (.badTypeOfField (cantCompareMsg .uint .aggState))
  | .uint l, .decimal _ v s => .ok (decEq (l : ℤ) 0 v s)
  | .int _, .null => .ok false
  | .int l, .uint r => .ok (equalsOpUI r l)
  | .int _, .uint128 _ => .error (.badTypeOfField (cantCompareMsg .int .uint128))
  | .int l, .int r => .ok (l == r)
  | .int l, .float r => .ok (equalsOpIF l r)
  | .int _, .str _ => .error (.badTypeOfField (cantCompareMsg .int .str))
  | .int _, .array _ => .error (.badTypeOfField (cantCompareMsg .int .array))
  | .int _, .tuple _ => .error (.badTypeOfField (cantCompareMsg .int .tuple))
  | .int _, .aggState _ _ => .error (.badTypeOfField (cantCompareMsg .int .aggState))
  | .int l, .decimal _ v s => .ok (decEq l 0 v s)
  | .float _, .null => .ok false
  | .float l, .uint r => .ok (equalsOpUF r l)
  | .float _, .uint128 _ => .error (.badTypeOfField (cantCompareMsg .float .uint128))
  | .float l, .int r => .ok (equalsOpIF r l)
  | .float l, .float r => .ok (l.beq r)
  | .float _, .str _ => .error (.badTypeOfField (cantCompareMsg .float .str))
  | .float _, .array _ => .error (.badTypeOfField (cantCompareMsg .float .array))
  | .float _, .tuple _ => .error (.badTypeOfField (cantCompareMsg .float .tuple))
  | .float _, .aggState _ _ => .error (.badTypeOfField (cantCompareMsg .float .aggState))
  | .float _, .decimal _ _ _ => .error (.badTypeOfField (cantCompareMsg .float .decimal))
  | .null, r => .ok (r.kind == .null)
  | .str l, .str r => .ok (l == r)
  | .str l, .uint128 r => (stringToUUID l).map (fun v => v == r)
  | .str _, .null => .ok false
  | .str _, r => .error (.badTypeOfField (cantCompareMsg .str r.kind))
  | .uint128 l, .uint128 r => .ok (l == r)
  | .uint128 l, .str r => (stringToUUID r).map (fun v => l == v)
  | .uint128 _, .null => .ok false
  | .uint128 _, r => .error (.badTypeOfField (cantCompareMsg .uint128 r.kind))
  | .array l, .array r => fieldListEq l r
  | .array _, .null => .ok false
  | .array _, r => .error (.badTypeOfField (cantCompareMsg .array r.kind))
  | .tuple l, .tuple r => fieldListEq l r
  | .tuple _, .null => .ok false
  | .tuple _, r => .error (.badTypeOfField (cantCompareMsg .tuple r.kind))
  | .decimal _ v s, .decimal _ v2 s2 => .ok (decEq v s v2 s2)
  | .decimal _ v s, .int r => .ok (decEq v s r 0)
  | .decimal _ v s, .uint r => .ok (decEq v s (r : ℤ) 0)
  | .decimal _ _ _, .null => .ok false
  | .decimal _ _ _, r => .error (.badTypeOfField (cantCompareMsg .decimal r.kind))
  | .aggState n d, .aggState n2 d2 => .ok (n == n2 && d == d2)
  | .aggState _ _, .null => .ok false
  | .aggState _ _, r => .error (.badTypeOfField (cantCompareMsg .aggState r.kind))

/-- `applyVisitor(FieldVisitorAccurateLess(), l, r)`
(`FieldVisitors.h` lines 288-390): the precision-safe cross-kind strict
order.  This visitor's `cantCompare` always raises `BAD_TYPE_OF_FIELD`
(it has no `Null` escape), `Null` is below every non-Null kind, a
`Float64` left of a `DecimalField` is defined as not-less, and an
`AggregateFunctionStateData` left operand never compares. -/
def accurateLess : Field → Field → Except Err Bool
  | .uint _, .null => .error (.badTypeOfField (cantCompareMsg .uint .null))
  | .uint l, .uint r => .ok (decide (l < r))
  | .uint _, .uint128 _ => .error (.badTypeOfField (cantCompareMsg .uint .uint128))
  | .uint l, .int r => .ok (lessOpUI l r)
  | .uint l, .float r => .ok (lessOpUF l r)
  | .uint _, .str _ => .error (.badTypeOfField (cantCompareMsg .uint .str))
  | .uint _, .array _ => .error (.badTypeOfField (cantCompareMsg .uint .array))
  | .uint _, .tuple _ => .error (.badTypeOfField (cantCompareMsg .uint .tuple))
  | .uint _, .aggState _ _ => .error (.badTypeOfField (cantCompareMsg .uint .aggState))
  | .uint l, .decimal _ v s => .ok (decLt (l : ℤ) 0 v s)
  | .int _, .null => .error (.badTypeOfField (cantCompareMsg .int .null))
  | .int l, .uint r => .ok (lessOpIU l r)
  | .int _, .uint128 _ => .error (.badTypeOfField (cantCompareMsg .int .uint128))
  | .int l, .int r => .ok (decide (l < r))
  | .int l, .float r => .ok (lessOpIF l r)
  | .int _, .str _ => .error (.badTypeOfField (cantCompareMsg .int .str))
  | .int _, .array _ => .error (.badTypeOfField (cantCompareMsg .int .array))
  | .int _, .tuple _ => .error (.badTypeOfField (cantCompareMsg .int .tuple))
  | .int _, .aggState _ _ => .error (.badTypeOfField (cantCompareMsg .int .aggState))
  | .int l, .decimal _ v s => .ok (decLt l 0 v s)
  | .float _, .null => .error (.badTypeOfField (cantCompareMsg .float .null))
  | .float l, .uint r => .ok (lessOpFU l r)
  | .float _, .uint128 _ => .error (.badTypeOfField (cantCompareMsg .float .uint128))
  | .float l, .int r => .ok (lessOpFI l r)
  | .float l, .float r => .ok (l.blt r)
  | .float _, .str _ => .error (.badTypeOfField (cantCompareMsg .float .str))
  | .float _, .array _ => .error (.badTypeOfField (cantCompareMsg .float .array))
  | .float _, .tuple _ => .error (.badTypeOfField (cantCompareMsg .float .tuple))
  | .float _, .aggState _ _ => .error (.badTypeOfField (cantCompareMsg .float .aggState))
  | .float _, .decimal _ _ _ => .ok false
  | .null, r => .ok (r.kind != .null)
  | .str l, .str r => .ok (decide (l < r))
  | .str l, .uint128 r => (stringToUUID l).map (fun v => decide (v < r))
  | .str _, r => .error (.badTypeOfField (cantCompareMsg .str r.kind))
  | .uint128 l, .uint128 r => .ok (decide (l < r))
  | .uint128 l, .str r => (stringToUUID r).map (fun v => decide (l < v))
  | .uint128 _, r => .error (.badTypeOfField (cantCompareMsg .uint128 r.kind))
  | .array l, .array r => fieldListLt l r
  | .array _, r => .error (.badTypeOfField (cantCompareMsg .array r.kind))
  | .tuple l, .tuple r => fieldListLt l r
  | .tuple _, r => .error (.badTypeOfField (cantCompareMsg .tuple r.kind))
  | .decimal _ v s, .decimal _ v2 s2 => .ok (decLt v s v2 s2)
  | .decimal _ v s, .int r => .ok (decLt v s r 0)
  | .decimal _ v s, .uint r => .ok (decLt v s (r : ℤ) 0)
  | .decimal _ _ _, r => .error (.badTypeOfField (cantCompareMsg .decimal r.kind))
  | .aggState _ _, r => .error (.badTypeOfField (cantCompareMsg .aggState r.kind))

/-- An integer destination type `T` (the template parameter of
`FieldVisitorConvertToNumber<T>` and `castField<T>`): signedness and bit
width. -/
structure IntTy where
  signed : Bool
  width : ℕ
deriving DecidableEq, Repr

/-- The C++ conversion of an arbitrary integer to the destination type:
reduction modulo `2^width`, mapped into the signed range when the
destination is signed. -/
def IntTy.wrap (t : IntTy) (i : ℤ) : ℤ :=
  let m := i % (2 : ℤ) ^ t.width
  if t.signed ∧ (2 : ℤ) ^ (t.width - 1) ≤ m then m - (2 : ℤ) ^ t.width else m

/-- Smallest value of the destination type. -/
def IntTy.minVal (t : IntTy) : ℤ :=
  if t.signed then -((2 : ℤ) ^ (t.width - 1)) else 0

/-- Largest value of the destination type. -/
def IntTy.maxVal (t : IntTy) : ℤ :=
  if t.signed then (2 : ℤ) ^ (t.width - 1) - 1 else (2 : ℤ) ^ t.width - 1

/-- Name of the destination type, as `demangle(typeid(T).name())` renders
it in the error messages (modelled with the ClickHouse typedef names). -/
def IntTy.typeName (t : IntTy) : String :=
  (if t.signed then "Int" else "UInt") ++ toString t.width

/-- Destination type of `FieldVisitorConvertToNumber<T>`: an integer type
or a floating type. -/
inductive NumTy where
  | intTy (t : IntTy)
  | floatTy
deriving DecidableEq, Repr

/-- Name of a numeric destination type for the error messages. -/
def NumTy.typeName : NumTy → String
  | .intTy t => t.typeName
  | .floatTy => "Float64"

/-- A value of the destination type of `FieldVisitorConvertToNumber<T>`. -/
inductive NumValue where
  | intVal (i : ℤ)
  | floatVal (f : Float64)
deriving DecidableEq, Repr

/-- Truncation of a double toward zero, the C++ float-to-integer
conversion (defined in C++ only when the truncated value is in the
destination range; the model totalizes the remaining, undefined cases
with 0 and no theorem below relies on them). -/
def Float64.truncInt : Float64 → ℤ
  | .finite q => Int.tdiv q.num q.den
  | _ => 0

/-- The native conversion of a payload already extracted as an integer to
the destination type `T`: modular wrap for an integer destination, exact
embedding for a floating destination (float rounding is not modelled; the
finite value is carried exactly). -/
def NumTy.ofInt : NumTy → ℤ → NumValue
  | .intTy t, i => .intVal (t.wrap i)
  | .floatTy, i => .floatVal (.finite (Frac.ofInt i))

/-- `FieldVisitorConvertToNumber<T>` (`FieldVisitors.h` lines 97-143):
converts a numeric payload to `T` with a plain native conversion and no
range check; `Null`, `String`, `Array`, `Tuple`, `UInt128` and
`AggregateFunctionStateData` raise `CANNOT_CONVERT_TYPE` with a message
naming the source kind; a `DecimalField` divides its magnitude by the
scale multiplier, with floating division for a floating `T` and
truncating integer division otherwise. -/
def convertToNumber (T : NumTy) : Field → Except Err NumValue
  | .null => .error (.cannotConvertType ("Cannot convert NULL to " ++ T.typeName))
  | .str _ => .error (.cannotConvertType ("Cannot convert String to " ++ T.typeName))
  | .array _ => .error (.cannotConvertType ("Cannot convert Array to " ++ T.typeName))
  | .tuple _ => .error (.cannotConvertType ("Cannot convert Tuple to " ++ T.typeName))
  | .uint u => .ok (T.ofInt u)
  | .int i => .ok (T.ofInt i)
  | .float f =>
    match T with
    | .intTy t => .ok (.intVal (t.wrap f.truncInt))
    | .floatTy => .ok (.floatVal f)
  | .uint128 _ => .error (.cannotConvertType ("Cannot convert UInt128 to " ++ T.typeName))
  | .decimal _ v s =>
    match T with
    | .intTy t => .ok (.intVal (t.wrap (Int.tdiv v ((10 : ℤ) ^ s))))
    | .floatTy => .ok (.floatVal (.finite ⟨v, 10 ^ s⟩))
  | .aggState _ _ =>
    .error (.cannotConvertType ("Cannot convert AggregateFunctionStateData to " ++ T.typeName))

/-- Exact addition of two finite fractions. -/
def Frac.add (a b : Frac) : Frac :=
  ⟨a.num * (b.den : ℤ) + b.num * (a.den : ℤ), a.den * b.den⟩

/-- IEEE addition shape on doubles (NaN dominates, opposite infinities
give NaN); the finite case is modelled exactly, without rounding. -/
def Float64.add : Float64 → Float64 → Float64
  | .finite a, .finite b => .finite (a.add b)
  | .nan, _ => .nan
  | _, .nan => .nan
  | .inf, .negInf => .nan
  | .negInf, .inf => .nan
  | .inf, _ => .inf
  | _, .inf => .inf
  | .negInf, _ => .negInf
  | _, .negInf => .negInf

/-- Whether a double is (semantically) zero. -/
def Float64.isZero : Float64 → Bool
  | .finite a => a.num == 0
  | _ => false

/-- Wrap an integer into the signed 64-bit range (native `Int64 +=`
overflow semantics). -/
def wrapInt64 (i : ℤ) : ℤ :=
  (i + (2 : ℤ) ^ 63) % (2 : ℤ) ^ 64 - (2 : ℤ) ^ 63

/-- `applyVisitor(FieldVisitorSum(rhs), x)` (`FieldVisitors.h` lines
396-420): adds `rhs` into the payload of `x` in place with native
arithmetic and returns the updated field together with the `!= 0` flag
the visitor returns.  The kinds with no sum raise `LOGICAL_ERROR` with
the messages of lines 407-412.  `get<T>(rhs)` extracts the matching
payload from `rhs`; a kind mismatch between `x` and `rhs` is a caller
contract violation (modelled as `LOGICAL_ERROR`).  A `DecimalField`
sum requires the scales to agree (`DecimalField::operator+=`, outside
src/, modelled from the spec). -/
def fieldVisitorSum : Field → Field → Except Err (Field × Bool)
  | .uint x, .uint r =>
    let x2 := (x + r) % 2 ^ 64
    .ok (.uint x2, x2 != 0)
  | .int x, .int r =>
    let x2 := wrapInt64 (x + r)
    .ok (.int x2, x2 != 0)
  | .float x, .float r =>
    let x2 := x.add r
    .ok (.float x2, !x2.isZero)
  | .null, _ => .error (.logicalError "Cannot sum Nulls")
  | .str _, _ => .error (.logicalError "Cannot sum Strings")
  | .array _, _ => .error (.logicalError "Cannot sum Arrays")
  | .tuple _, _ => .error (.logicalError "Cannot sum Tuples")
  | .uint128 _, _ => .error (.logicalError "Cannot sum UUIDs")
  | .aggState _ _, _ => .error (.logicalError "Cannot sum AggregateFunctionStates")
  | .decimal p v s, .decimal p2 v2 s2 =>
    if p = p2 ∧ s = s2 then
      let v3 := v + v2
      .ok (.decimal p v3 s, v3 != 0)
    else .error (.logicalError "Sum of DecimalField with mismatched scale")
  | _, _ => .error (.logicalError "Bad get: FieldVisitorSum rhs kind mismatch")

/-- Modelled from the spec: the rendering of `FieldVisitorToString`
(declared at `FieldVisitors.h` lines 59-74, defined outside src/):
a SQL-literal-like textual form; integers render in decimal. -/
def renderField : Field → String
  | .null => "NULL"
  | .uint u => toString u
  | .int i => toString i
  | .float f =>
    match f with
    | .finite q => toString q.num ++ " / " ++ toString q.den
    | .inf => "inf"
    | .negInf => "-inf"
    | .nan => "nan"
  | .uint128 u => toString u
  | .str s => s
  | .array _ => "Array"
  | .tuple _ => "Tuple"
  | .decimal _ v s => toString v ++ " * 10^-" ++ toString s
  | .aggState n _ => n

/-- Modelled from the C++ `std::is_convertible_v<DestType, SrcType>` test
of `castFieldValue` (`FieldVisitors.h` line 442) over the repository's
payload types: an integer destination type interconverts with the three
native numeric payload types and with no other payload kind. -/
def convertibleTo : FieldKind → Bool
  | .uint => true
  | .int => true
  | .float => true
  | _ => false

/-- The `VALUE_IS_OUT_OF_RANGE_OF_DATA_TYPE` message of
`staticCastFieldValue` (`FieldVisitors.h` lines 431-434): the rendered
original value, the source type name and the destination type name. -/
def outOfRangeMsg (rendered srcName destName : String) : String :=
  "Cannot cast Field value " ++ rendered ++ " of type " ++ srcName
    ++ " to " ++ destName

/-- The `TYPE_MISMATCH` message of `castFieldValue`
(`FieldVisitors.h` lines 448-450). -/
def typeMismatchMsg (srcName destName : String) : String :=
  "Cannot cast Field value of type " ++ srcName ++ " to " ++ destName

/-- `staticCastFieldValue<DestType>` on a `UInt64` payload
(`FieldVisitors.h` lines 425-437): native cast, then an accurate
round-trip equality check; an inexact round trip raises
`VALUE_IS_OUT_OF_RANGE_OF_DATA_TYPE`. -/
def staticCastFieldValueU (t : IntTy) (u : ℕ) : Except Err ℤ :=
  let dest := t.wrap u
  if dest == (u : ℤ) then .ok dest
  else .error (.valueOutOfRange
    (outOfRangeMsg (renderField (.uint u)) (FieldKind.typeName .uint) t.typeName))

/-- `staticCastFieldValue<DestType>` on an `Int64` payload. -/
def staticCastFieldValueI (t : IntTy) (i : ℤ) : Except Err ℤ :=
  let dest := t.wrap i
  if dest == i then .ok dest
  else .error (.valueOutOfRange
    (outOfRangeMsg (renderField (.int i)) (FieldKind.typeName .int) t.typeName))

/-- `staticCastFieldValue<DestType>` on a `Float64` payload: the C++
float-to-integer cast truncates toward zero (and is undefined outside the
destination range — the model totalizes with the wrap of the
truncation), then the accurate comparator checks the round trip. -/
def staticCastFieldValueF (t : IntTy) (f : Float64) : Except Err ℤ :=
  let dest := t.wrap f.truncInt
  if equalsOpIF dest f then .ok dest
  else .error (.valueOutOfRange
    (outOfRangeMsg (renderField (.float f)) (FieldKind.typeName .float) t.typeName))

/-- `castField<DestType>` for an integer destination type
(`FieldVisitors.h` lines 439-464): dispatches over the payload; a
convertible (numeric) source goes through `staticCastFieldValue`, any
other source kind raises `TYPE_MISMATCH`. -/
def castField (t : IntTy) : Field → Except Err ℤ
  | .uint u => staticCastFieldValueU t u
  | .int i => staticCastFieldValueI t i
  | .float f => staticCastFieldValueF t f
  | f => .error (.typeMismatch (typeMismatchMsg f.kind.typeName t.typeName))

namespace ProfileEvents

/-- The `ProfileEvents::Event` enumeration
(`DB/Common/ProfileEvents.h`, `APPLY_FOR_EVENTS`), in declaration
order, `END` included. -/
inductive Event where
  | Query
  | SelectQuery
  | InsertQuery
  | FileOpen
  | Seek
  | ReadBufferFromFileDescriptorRead
  | ReadCompressedBytes
  | CompressedReadBufferBlocks
  | CompressedReadBufferBytes
  | UncompressedCacheHits
  | UncompressedCacheMisses
  | UncompressedCacheWeightLost
  | IOBufferAllocs
  | IOBufferAllocBytes
  | ArenaAllocChunks
  | ArenaAllocBytes
  | FunctionExecute
  | MarkCacheHits
  | MarkCacheMisses
  | ReplicatedPartFetches
  | ReplicatedPartFailedFetches
  | ObsoleteReplicatedParts
  | ReplicatedPartMerges
  | ReplicatedPartFetchesOfMerged
  | ReplicatedPartChecks
  | ReplicatedPartChecksFailed
  | ZooKeeperInit
  | ZooKeeperTransactions
  | ZooKeeperGetChildren
  | ZooKeeperCreate
  | ZooKeeperRemove
  | ZooKeeperExists
  | ZooKeeperGet
  | ZooKeeperSet
  | ZooKeeperMulti
  | ZooKeeperExceptions
  | END
deriving DecidableEq, Repr

/-- The numeric value of an `Event` enumerator (its declaration index). -/
def Event.idx : Event → ℕ
  | .Query => 0
  | .SelectQuery => 1
  | .InsertQuery => 2
  | .FileOpen => 3
  | .Seek => 4
  | .ReadBufferFromFileDescriptorRead => 5
  | .ReadCompressedBytes => 6
  | .CompressedReadBufferBlocks => 7
  | .CompressedReadBufferBytes => 8
  | .UncompressedCacheHits => 9
  | .UncompressedCacheMisses => 10
  | .UncompressedCacheWeightLost => 11
  | .IOBufferAllocs => 12
  | .IOBufferAllocBytes => 13
  | .ArenaAllocChunks => 14
  | .ArenaAllocBytes => 15
  | .FunctionExecute => 16
  | .MarkCacheHits => 17
  | .MarkCacheMisses => 18
  | .ReplicatedPartFetches => 19
  | .ReplicatedPartFailedFetches => 20
  | .ObsoleteReplicatedParts => 21
  | .ReplicatedPartMerges => 22
  | .ReplicatedPartFetchesOfMerged => 23
  | .ReplicatedPartChecks => 24
  | .ReplicatedPartChecksFailed => 25
  | .ZooKeeperInit => 26
  | .ZooKeeperTransactions => 27
  | .ZooKeeperGetChildren => 28
  | .ZooKeeperCreate => 29
  | .ZooKeeperRemove => 30
  | .ZooKeeperExists => 31
  | .ZooKeeperGet => 32
  | .ZooKeeperSet => 33
  | .ZooKeeperMulti => 34
  | .ZooKeeperExceptions => 35
  | .END => 36

/-- The `M(NAME, DESCRIPTION)` pairs of `APPLY_FOR_EVENTS`, in
declaration order: each event with the fixed label paired with it. -/
def eventTable : List (Event × String) :=
  [(.Query, "Queries"),
   (.SelectQuery, "Select queries"),
   (.InsertQuery, "Insert queries"),
   (.FileOpen, "File opens"),
   (.Seek, "Seeks"),
   (.ReadBufferFromFileDescriptorRead, "ReadBufferFromFileDescriptor reads"),
   (.ReadCompressedBytes, "Read compressed bytes"),
   (.CompressedReadBufferBlocks, "Read decompressed blocks"),
   (.CompressedReadBufferBytes, "Read decompressed bytes"),
   (.UncompressedCacheHits, "Uncompressed cache hits"),
   (.UncompressedCacheMisses, "Uncompressed cache misses"),
   (.UncompressedCacheWeightLost, "Uncompressed cache weight lost"),
   (.IOBufferAllocs, "IO buffers allocations"),
   (.IOBufferAllocBytes, "IO buffers allocated bytes"),
   (.ArenaAllocChunks, "Arena allocated chunks"),
   (.ArenaAllocBytes, "Arena allocated bytes"),
   (.FunctionExecute, "Function executes"),
   (.MarkCacheHits, "Mark cache hits"),
   (.MarkCacheMisses, "Mark cache misses"),
   (.ReplicatedPartFetches, "Replicated part fetches"),
   (.ReplicatedPartFailedFetches, "Replicated part fetches failed"),
   (.ObsoleteReplicatedParts, "Replicated parts rendered obsolete by fetches"),
   (.ReplicatedPartMerges, "Replicated part merges"),
   (.ReplicatedPartFetchesOfMerged, "Replicated part merges replaced with fetches"),
   (.ReplicatedPartChecks, "Replicated part checks"),
   (.ReplicatedPartChecksFailed, "Replicated part checks failed"),
   (.ZooKeeperInit, "ZooKeeper session init"),
   (.ZooKeeperTransactions, "ZooKeeper transaction (all types)"),
   (.ZooKeeperGetChildren, "ZooKeeper get children"),
   (.ZooKeeperCreate, "ZooKeeper create"),
   (.ZooKeeperRemove, "ZooKeeper remove"),
   (.ZooKeeperExists, "ZooKeeper exists"),
   (.ZooKeeperGet, "ZooKeeper get"),
   (.ZooKeeperSet, "ZooKeeper set"),
   (.ZooKeeperMulti, "ZooKeeper multi"),
   (.ZooKeeperExceptions, "ZooKeeper exceptions"),
   (.END, "")]

/-- `ProfileEvents::getDescription` (`ProfileEvents.h` lines 64-74):
indexes the static `descriptions` array (the second components of
`APPLY_FOR_EVENTS`) with the event's enum value.  It reads no counter
state. -/
def getDescription (event : Event) : String :=
  (eventTable.map Prod.snd).getD event.idx ""

/-- The process-wide counter array `ProfileEvents::counters`, one
`size_t` cell per event. -/
def Counters : Type :=
  Event → ℕ

/-- `ProfileEvents::increment` (`ProfileEvents.h` lines 82-85): atomic
add of `amount` to `counters[event]`, with native `size_t` (64-bit)
wraparound; every other cell is untouched. -/
def increment (event : Event) (amount : ℕ) (counters : Counters) : Counters :=
  fun e => if e = event then (counters e + amount) % 2 ^ 64 else counters e

end ProfileEvents

/-! ## Theorems -/

/-- C2.  The claim asserts that a non-Null left operand compared against
a Null right operand yields false without error; but the ordering
visitor's `cantCompare` (`FieldVisitors.h` lines 384-389) always throws,
so `UnsignedInteger(0) < Null` raises `BAD_TYPE_OF_FIELD` instead of
evaluating to false. -/
theorem uintZero_less_null_raises :
    accurateLess (Field.uint 0) Field.null =
      .error (.badTypeOfField "Cannot compare UInt64 with Null") := by
  rfl

/-- C2 (amended).  For the accurate ordering visitor, Null compares as
less than every non-Null kind, `Null < Null` is false, and a non-Null
left operand compared against a Null right operand raises
`BAD_TYPE_OF_FIELD` naming the two kinds (rather than yielding false). -/
theorem null_ordering_amended :
    (∀ r : Field, r.kind ≠ .null → accurateLess .null r = .ok true) ∧
    accurateLess .null .null = .ok false ∧
    (∀ l : Field, l.kind ≠ .null →
      accurateLess l .null = .error (.badTypeOfField (cantCompareMsg l.kind .null))) := by
  refine ⟨fun r hr => ?_, rfl, fun l hl => ?_⟩
  · cases r <;> first
      | rfl
      | simp [Field.kind] at hr
  · cases l <;> first
      | rfl
      | simp [Field.kind] at hl

/-- C2 (witness). -/
theorem null_ordering_amended_witness :
    accurateLess .null (Field.uint 7) = .ok true ∧
    accurateLess (Field.str "a") .null =
      .error (.badTypeOfField (cantCompareMsg .str .null)) :=
  ⟨null_ordering_amended.1 (Field.uint 7) (by decide),
   null_ordering_amended.2.2 (Field.str "a") (by decide)⟩

/-- C4.  Comparing a `DecimalValue` with a `FloatingPoint` for equality
raises the cannot-compare error (`BAD_TYPE_OF_FIELD`) in both operand
orders, while for ordering a `FloatingPoint` left operand against a
`DecimalValue` right operand returns false without error
(`FieldVisitors.h` lines 266, 363-371, 375). -/
theorem float_decimal_comparison_policy :
    ∀ (f : Float64) (p : DecPrec) (v : ℤ) (s : ℕ),
      accurateEquals (.float f) (.decimal p v s) =
        .error (.badTypeOfField (cantCompareMsg .float .decimal)) ∧
      accurateEquals (.decimal p v s) (.float f) =
        .error (.badTypeOfField (cantCompareMsg .decimal .float)) ∧
      accurateLess (.float f) (.decimal p v s) = .ok false := by
  intro f p v s
  exact ⟨rfl, rfl, rfl⟩

/-- C7.  For both accurate visitors, a `Text` operand against a `UInt128`
operand, in either order, parses the text as a UUID string and compares
the parsed 128-bit value against the `UInt128` by value; an unparseable
text propagates the parse failure as an error (`FieldVisitors.h` lines
218-236 and 327-345). -/
theorem text_uint128_uuid_comparison :
    ∀ (s : String) (u : ℕ),
      accurateEquals (.str s) (.uint128 u) = (stringToUUID s).map (fun v => v == u) ∧
      accurateEquals (.uint128 u) (.str s) = (stringToUUID s).map (fun v => u == v) ∧
      accurateLess (.str s) (.uint128 u) = (stringToUUID s).map (fun v => decide (v < u)) ∧
      accurateLess (.uint128 u) (.str s) = (stringToUUID s).map (fun v => decide (u < v)) ∧
      (∀ e, stringToUUID s = .error e →
        accurateEquals (.str s) (.uint128 u) = .error e ∧
        accurateLess (.str s) (.uint128 u) = .error e) := by
  intro s u
  refine ⟨rfl, rfl, rfl, rfl, fun e he => ?_⟩
  constructor <;> simp [accurateEquals, accurateLess, he, Except.map]

/-- C7 (witness). -/
theorem text_uint128_uuid_comparison_witness :
    stringToUUID "not-a-uuid" = .error (.cannotParseUUID "not-a-uuid") ∧
    accurateEquals (.str "not-a-uuid") (.uint128 0) =
      .error (.cannotParseUUID "not-a-uuid") :=
  ⟨by rfl,
   ((text_uint128_uuid_comparison "not-a-uuid" 0).2.2.2.2
      (.cannotParseUUID "not-a-uuid") (by rfl)).1⟩

/-- C8.  `FieldVisitorSum` on an `UnsignedInteger` target adds the
right-hand `UnsignedInteger` into it with native 64-bit wraparound and
returns whether the post-addition value is non-zero; from
`UnsignedInteger(5)`, adding `UnsignedInteger(3)` yields
`UnsignedInteger(8)` and true, adding `UnsignedInteger(u64::MAX - 4)`
yields `UnsignedInteger(0)` and false (`FieldVisitors.h` line 403). -/
theorem sum_uint64_wraparound :
    (∀ x r : ℕ, fieldVisitorSum (.uint x) (.uint r) =
      .ok (.uint ((x + r) % 2 ^ 64), ((x + r) % 2 ^ 64 != 0))) ∧
    fieldVisitorSum (.uint 5) (.uint 3) = .ok (.uint 8, true) ∧
    fieldVisitorSum (.uint 5) (.uint (2 ^ 64 - 1 - 4)) = .ok (.uint 0, false) := by
  refine ⟨fun x r => rfl, by rfl, by rfl⟩

/-- The compatibility matrix of the accurate equality visitor, as §4.6 of
the specification defines it: same-kind pairs, the numeric cross-kind
pairs, `Text`↔`UInt128`, `DecimalValue`↔integer, and `Null` paired with
anything. -/
def eqCompatible : FieldKind → FieldKind → Bool
  | .null, _ => true
  | _, .null => true
  | .uint, .int => true
  | .uint, .float => true
  | .uint, .decimal => true
  | .int, .uint => true
  | .int, .float => true
  | .int, .decimal => true
  | .float, .uint => true
  | .float, .int => true
  | .str, .uint128 => true
  | .uint128, .str => true
  | .decimal, .int => true
  | .decimal, .uint => true
  | k1, k2 => k1 == k2

/-- C5.  For the accurate equality visitor, every kind pair outside the
defined compatibility matrix raises `BAD_TYPE_OF_FIELD` naming the two
kinds; against a `Null` right operand every non-Null left kind resolves
to false without error; and `Null == Null` is true
(`FieldVisitors.h` lines 212-216, 276-284). -/
theorem equals_matrix_errors :
    (∀ l r : Field, eqCompatible l.kind r.kind = false →
      accurateEquals l r = .error (.badTypeOfField (cantCompareMsg l.kind r.kind))) ∧
    (∀ l : Field, l.kind ≠ .null → accurateEquals l .null = .ok false) ∧
    accurateEquals .null .null = .ok true := by
  refine ⟨fun l r h => ?_, fun l h => ?_, rfl⟩
  · cases l <;> cases r <;> first
      | rfl
      | simp [eqCompatible, Field.kind] at h
  · cases l <;> first
      | rfl
      | simp [Field.kind] at h

/-- C5 (witness). -/
theorem equals_matrix_errors_witness :
    eqCompatible (Field.float .inf).kind (Field.str "x").kind = false ∧
    accurateEquals (Field.float .inf) (Field.str "x") =
      .error (.badTypeOfField (cantCompareMsg .float .str)) ∧
    accurateEquals (Field.tuple .nil) .null = .ok false :=
  ⟨by decide,
   by simpa using equals_matrix_errors.1 (Field.float .inf) (Field.str "x") (by decide),
   equals_matrix_errors.2.1 (Field.tuple .nil) (by decide)⟩

/-- The source-kind name in the `CANNOT_CONVERT_TYPE` messages of
`FieldVisitorConvertToNumber` (the `Null` payload is reported as `NULL`,
`FieldVisitors.h` line 103). -/
def convertErrName : FieldKind → String
  | .null => "NULL"
  | k => k.typeName

/-- C6.  `FieldVisitorConvertToNumber<T>` raises `CANNOT_CONVERT_TYPE`
naming the source kind exactly when the payload is `Null`, `Text`,
`Sequence`, `Record`, `UInt128` or `OpaqueAggregateState`; a
`DecimalValue` payload converts to the magnitude divided by the scale
multiplier, by exact (floating) division for a floating `T` and by
truncating integer division otherwise (`FieldVisitors.h` lines
97-143). -/
theorem convert_to_number_matrix :
    (∀ (T : NumTy) (f : Field),
      (f.kind = .null ∨ f.kind = .str ∨ f.kind = .array ∨ f.kind = .tuple ∨
        f.kind = .uint128 ∨ f.kind = .aggState) →
      convertToNumber T f =
        .error (.cannotConvertType
          ("Cannot convert " ++ convertErrName f.kind ++ " to " ++ T.typeName))) ∧
    (∀ (T : NumTy) (f : Field),
      ¬(f.kind = .null ∨ f.kind = .str ∨ f.kind = .array ∨ f.kind = .tuple ∨
        f.kind = .uint128 ∨ f.kind = .aggState) →
      ∃ v, convertToNumber T f = .ok v) ∧
    (∀ (t : IntTy) (p : DecPrec) (v : ℤ) (s : ℕ),
      convertToNumber (.intTy t) (.decimal p v s) =
        .ok (.intVal (t.wrap (Int.tdiv v ((10 : ℤ) ^ s))))) ∧
    (∀ (p : DecPrec) (v : ℤ) (s : ℕ),
      convertToNumber .floatTy (.decimal p v s) =
        .ok (.floatVal (.finite ⟨v, 10 ^ s⟩))) := by
  refine ⟨fun T f h => ?_, fun T f h => ?_, fun t p v s => rfl, fun p v s => rfl⟩
  · cases f <;> first
      | rfl
      | simp [Field.kind] at h
  · cases f <;> first
      | (cases T <;> exact ⟨_, rfl⟩)
      | simp [Field.kind] at h

/-- C6 (witness). -/
theorem convert_to_number_matrix_witness :
    ((Field.uint128 5).kind = .null ∨ (Field.uint128 5).kind = .str ∨
      (Field.uint128 5).kind = .array ∨ (Field.uint128 5).kind = .tuple ∨
      (Field.uint128 5).kind = .uint128 ∨ (Field.uint128 5).kind = .aggState) ∧
    convertToNumber (.intTy ⟨true, 32⟩) (Field.uint128 5) =
      .error (.cannotConvertType "Cannot convert UInt128 to Int32") ∧
    (∃ v, convertToNumber .floatTy (Field.int (-7)) = .ok v) :=
  ⟨by decide,
   by simpa using
     (convert_to_number_matrix.1 (.intTy ⟨true, 32⟩) (Field.uint128 5) (by decide)),
   convert_to_number_matrix.2.1 .floatTy (Field.int (-7)) (by decide)⟩

/-- C9.  For an `UnsignedInteger`, `SignedInteger` or `FloatingPoint`
payload, `FieldVisitorConvertToNumber<T>` performs the plain native
conversion with no range or exactness check and never raises: a `UInt64`
value converted to an unsigned integer type of width `w` comes back
modulo `2^w` (`UnsignedInteger(300)` to the 8-bit unsigned type gives 44
without error), unlike `castField`, which rejects the same input with
`VALUE_IS_OUT_OF_RANGE_OF_DATA_TYPE` (`FieldVisitors.h` lines
121-123, 425-437). -/
theorem convert_to_number_no_range_check :
    (∀ (w : ℕ) (u : ℕ),
      convertToNumber (.intTy ⟨false, w⟩) (.uint u) =
        .ok (.intVal ((u : ℤ) % (2 : ℤ) ^ w))) ∧
    (∀ (T : NumTy) (u : ℕ), ∃ v, convertToNumber T (.uint u) = .ok v) ∧
    (∀ (T : NumTy) (i : ℤ), ∃ v, convertToNumber T (.int i) = .ok v) ∧
    (∀ (T : NumTy) (f : Float64), ∃ v, convertToNumber T (.float f) = .ok v) ∧
    convertToNumber (.intTy ⟨false, 8⟩) (.uint 300) = .ok (.intVal 44) ∧
    castField ⟨false, 8⟩ (.uint 300) =
      .error (.valueOutOfRange (outOfRangeMsg "300" "UInt64" "UInt8")) := by
  refine ⟨fun w u => ?_, fun T u => ?_, fun T i => ?_, fun T f => ?_, by rfl, by rfl⟩
  · simp [convertToNumber, NumTy.ofInt, IntTy.wrap]
  · cases T <;> exact ⟨_, rfl⟩
  · cases T <;> exact ⟨_, rfl⟩
  · cases T <;> exact ⟨_, rfl⟩

/-- C10.  `ProfileEvents::increment(event, amount)` adds `amount` into
`counters[event]` (a native `size_t` cell, hence modulo `2^64`) and
leaves every other counter unchanged; `getDescription(event)` returns
the label paired with that event in the `APPLY_FOR_EVENTS` table and
reads no counter state (`ProfileEvents.h` lines 64-74, 82-85). -/
theorem profile_events_increment_frame :
    ∀ (ev : ProfileEvents.Event) (amt : ℕ) (c : ProfileEvents.Counters),
      ProfileEvents.increment ev amt c ev = (c ev + amt) % 2 ^ 64 ∧
      (∀ e, e ≠ ev → ProfileEvents.increment ev amt c e = c e) ∧
      (ev, ProfileEvents.getDescription ev) ∈ ProfileEvents.eventTable := by
  intro ev amt c
  refine ⟨by simp [ProfileEvents.increment], fun e he => ?_, ?_⟩
  · simp [ProfileEvents.increment, he]
  · cases ev <;> decide

/-- C10 (witness). -/
theorem profile_events_increment_frame_witness :
    ProfileEvents.Event.Seek ≠ ProfileEvents.Event.Query ∧
    ProfileEvents.increment .Query 2 (fun _ => 0) .Seek = (fun _ : ProfileEvents.Event => 0) .Seek :=
  ⟨by decide,
   (profile_events_increment_frame .Query 2 (fun _ => 0)).2.1 .Seek (by decide)⟩

/-- Whether a double is the NaN value. -/
def Float64.isNaN : Float64 → Bool
  | .nan => true
  | _ => false

mutual

/-- No NaN floating value occurs anywhere in the payload. -/
def Field.nanFree : Field → Bool
  | .float f => !f.isNaN
  | .array xs => xs.nanFreeList
  | .tuple xs => xs.nanFreeList
  | _ => true

/-- No NaN floating value occurs in any element. -/
def FieldList.nanFreeList : FieldList → Bool
  | .nil => true
  | .cons x xs => x.nanFree && xs.nanFreeList

end

mutual

/-- No `AggregateFunctionStateData` occurs anywhere in the payload. -/
def Field.aggFree : Field → Bool
  | .aggState _ _ => false
  | .array xs => xs.aggFreeList
  | .tuple xs => xs.aggFreeList
  | _ => true

/-- No `AggregateFunctionStateData` occurs in any element. -/
def FieldList.aggFreeList : FieldList → Bool
  | .nil => true
  | .cons x xs => x.aggFree && xs.aggFreeList

end

/-- IEEE equality of a double with itself holds exactly off NaN. -/
theorem Float64.beq_self (f : Float64) : f.beq f = !f.isNaN := by
  cases f <;> simp [Float64.beq, Float64.isNaN, Frac.feq]

/-- IEEE strict order of a double with itself is always false. -/
theorem Float64.blt_self (f : Float64) : f.blt f = false := by
  cases f <;> simp [Float64.blt, Frac.flt]

/-- Decimal scale-aligned equality is reflexive. -/
theorem decEq_self (v : ℤ) (s : ℕ) : decEq v s v s = true := by
  simp [decEq]

/-- Decimal scale-aligned strict order is irreflexive. -/
theorem decLt_self (v : ℤ) (s : ℕ) : decLt v s v s = false := by
  simp [decLt]

/-- The error raised when an `AggregateFunctionStateData` element is
ordered. -/
def aggOrderErr : Err :=
  .notImplemented "Operator less is not implemented for AggregateFunctionStateData"

mutual

/-- Elementwise `Field` equality on the diagonal evaluates to the
NaN-freeness of the payload: a NaN anywhere makes a value unequal to
itself, every other payload is equal to itself. -/
theorem fieldEq_refl (a : Field) : fieldEq a a = .ok a.nanFree := by
  cases a with
  | null => rfl
  | uint u => simp [fieldEq, Field.nanFree]
  | int i => simp [fieldEq, Field.nanFree]
  | float f => simp [fieldEq, Field.nanFree, Float64.beq_self]
  | uint128 u => simp [fieldEq, Field.nanFree]
  | str s => simp [fieldEq, Field.nanFree]
  | array xs => simp [fieldEq, Field.nanFree, fieldListEqAligned_refl xs]
  | tuple xs => simp [fieldEq, Field.nanFree, fieldListEqAligned_refl xs]
  | decimal p v s => simp [fieldEq, Field.nanFree, decEq_self]
  | aggState n d => simp [fieldEq, Field.nanFree]

/-- List version of `fieldEq_refl`. -/
theorem fieldListEqAligned_refl (xs : FieldList) :
    fieldListEqAligned xs xs = .ok xs.nanFreeList := by
  cases xs with
  | nil => rfl
  | cons x xs =>
    rw [fieldListEqAligned, fieldEq_refl x]
    cases hx : x.nanFree <;>
      simp [FieldList.nanFreeList, hx, fieldListEqAligned_refl xs]

end

mutual

/-- Elementwise three-way `Field` comparison on the diagonal: `eq` when
the payload holds no aggregate state, the order-undefined error when it
does. -/
theorem fieldOrd_refl (a : Field) :
    fieldOrd a a = if a.aggFree then .ok .eq else .error aggOrderErr := by
  cases a with
  | null => rfl
  | uint u => simp [fieldOrd, Field.aggFree]
  | int i => simp [fieldOrd, Field.aggFree]
  | float f => simp [fieldOrd, Field.aggFree, Float64.blt_self]
  | uint128 u => simp [fieldOrd, Field.aggFree]
  | str s => simp [fieldOrd, Field.aggFree, String.lt_irrefl]
  | array xs => simp [fieldOrd, Field.aggFree, fieldListOrd_refl xs]
  | tuple xs => simp [fieldOrd, Field.aggFree, fieldListOrd_refl xs]
  | decimal p v s => simp [fieldOrd, Field.aggFree, decLt_self]
  | aggState n d => simp [fieldOrd, Field.aggFree, aggOrderErr]

/-- List version of `fieldOrd_refl`. -/
theorem fieldListOrd_refl (xs : FieldList) :
    fieldListOrd xs xs = if xs.aggFreeList then .ok .eq else .error aggOrderErr := by
  cases xs with
  | nil => rfl
  | cons x xs =>
    rw [fieldListOrd, fieldOrd_refl x]
    cases hx : x.aggFree <;>
      simp [FieldList.aggFreeList, hx, fieldListOrd_refl xs]

end

/-- C3.  The claim asserts reflexivity of `accurateEquals` and error-free
irreflexivity of `accurateLess` for every payload, floats and
`OpaqueAggregateState` included; but a NaN `FloatingPoint` payload is not
equal to itself (IEEE `==` at `FieldVisitors.h` line 206), and ordering
an `OpaqueAggregateState` against itself raises `BAD_TYPE_OF_FIELD`
(lines 377-381). -/
theorem accurate_reflexivity_counterexample :
    accurateEquals (Field.float .nan) (Field.float .nan) = .ok false ∧
    accurateLess (Field.aggState "uniq" "bytes") (Field.aggState "uniq" "bytes") =
      .error (.badTypeOfField (cantCompareMsg .aggState .aggState)) :=
  ⟨rfl, rfl⟩

/-- C3 (amended).  For every `Field` payload `a`, `accurateEquals a a` is
true unless `a` is or contains a NaN floating value, in which case it is
false (still without error); and `accurateLess a a` is false without
error unless `a` is or contains an `OpaqueAggregateState`, in which case
it raises an error. -/
theorem accurate_reflexivity_amended :
    ∀ a : Field,
      accurateEquals a a = .ok a.nanFree ∧
      (a.aggFree = true → accurateLess a a = .ok false) ∧
      (a.aggFree = false → ∃ e, accurateLess a a = .error e) := by
  intro a
  refine ⟨?_, ?_, ?_⟩
  · cases a with
    | null => rfl
    | uint u => simp [accurateEquals, Field.nanFree]
    | int i => simp [accurateEquals, Field.nanFree]
    | float f => simp [accurateEquals, Field.nanFree, Float64.beq_self]
    | uint128 u => simp [accurateEquals, Field.nanFree]
    | str s => simp [accurateEquals, Field.nanFree]
    | array xs =>
      simp [accurateEquals, fieldListEq, Field.nanFree, fieldListEqAligned_refl xs]
    | tuple xs =>
      simp [accurateEquals, fieldListEq, Field.nanFree, fieldListEqAligned_refl xs]
    | decimal p v s => simp [accurateEquals, Field.nanFree, decEq_self]
    | aggState n d => simp [accurateEquals, Field.nanFree]
  · intro h
    cases a with
    | null => rfl
    | uint u => simp [accurateLess]
    | int i => simp [accurateLess]
    | float f => simp [accurateLess, Float64.blt_self]
    | uint128 u => simp [accurateLess]
    | str s => simp [accurateLess, String.lt_irrefl]
    | array xs =>
      simp only [Field.aggFree] at h
      simp [accurateLess, fieldListLt, fieldListOrd_refl xs, h, Except.map]
      rfl
    | tuple xs =>
      simp only [Field.aggFree] at h
      simp [accurateLess, fieldListLt, fieldListOrd_refl xs, h, Except.map]
      rfl
    | decimal p v s => simp [accurateLess, decLt_self]
    | aggState n d => simp [Field.aggFree] at h
  · intro h
    cases a with
    | array xs =>
      simp only [Field.aggFree] at h
      exact ⟨aggOrderErr,
        by simp [accurateLess, fieldListLt, fieldListOrd_refl xs, h, Except.map]⟩
    | tuple xs =>
      simp only [Field.aggFree] at h
      exact ⟨aggOrderErr,
        by simp [accurateLess, fieldListLt, fieldListOrd_refl xs, h, Except.map]⟩
    | aggState n d => exact ⟨_, rfl⟩
    | null => simp [Field.aggFree] at h
    | uint u => simp [Field.aggFree] at h
    | int i => simp [Field.aggFree] at h
    | float f => simp [Field.aggFree] at h
    | uint128 u => simp [Field.aggFree] at h
    | str s => simp [Field.aggFree] at h
    | decimal p v s => simp [Field.aggFree] at h

/-- C3 (witness). -/
theorem accurate_reflexivity_amended_witness :
    (Field.array (.cons (Field.uint 3) (.cons (Field.str "a") .nil))).aggFree = true ∧
    accurateLess (Field.array (.cons (Field.uint 3) (.cons (Field.str "a") .nil)))
      (Field.array (.cons (Field.uint 3) (.cons (Field.str "a") .nil))) = .ok false :=
  ⟨by decide,
   (accurate_reflexivity_amended
      (Field.array (.cons (Field.uint 3) (.cons (Field.str "a") .nil)))).2.1 (by decide)⟩

/-- C1.  `castField<DestType>` on a numeric payload succeeds with the
statically cast value exactly when the accurate round-trip comparison of
the cast value against the original holds, raises
`VALUE_IS_OUT_OF_RANGE_OF_DATA_TYPE` naming the rendered value, the
source type and the destination type when it does not, and raises
`TYPE_MISMATCH` on every payload kind the destination is not convertible
from; casting `SignedInteger(300)` to the 8-bit unsigned type fails with
the out-of-range error and casting `SignedInteger(100)` returns 100
(`FieldVisitors.h` lines 425-464). -/
theorem castField_round_trip :
    (∀ (t : IntTy) (u : ℕ),
      (t.wrap u = (u : ℤ) → castField t (.uint u) = .ok (t.wrap u)) ∧
      (t.wrap u ≠ (u : ℤ) → castField t (.uint u) =
        .error (.valueOutOfRange
          (outOfRangeMsg (renderField (.uint u)) (FieldKind.typeName .uint) t.typeName)))) ∧
    (∀ (t : IntTy) (i : ℤ),
      (t.wrap i = i → castField t (.int i) = .ok (t.wrap i)) ∧
      (t.wrap i ≠ i → castField t (.int i) =
        .error (.valueOutOfRange
          (outOfRangeMsg (renderField (.int i)) (FieldKind.typeName .int) t.typeName)))) ∧
    (∀ (t : IntTy) (f : Float64),
      (equalsOpIF (t.wrap f.truncInt) f = true →
        castField t (.float f) = .ok (t.wrap f.truncInt)) ∧
      (equalsOpIF (t.wrap f.truncInt) f = false →
        castField t (.float f) = .error (.valueOutOfRange
          (outOfRangeMsg (renderField (.float f)) (FieldKind.typeName .float) t.typeName)))) ∧
    (∀ (t : IntTy) (f : Field), convertibleTo f.kind = false →
      castField t f = .error (.typeMismatch (typeMismatchMsg f.kind.typeName t.typeName))) ∧
    castField ⟨false, 8⟩ (.int 300) =
      .error (.valueOutOfRange (outOfRangeMsg "300" "Int64" "UInt8")) ∧
    castField ⟨false, 8⟩ (.int 100) = .ok 100 := by
  refine ⟨fun t u => ⟨fun h => ?_, fun h => ?_⟩,
          fun t i => ⟨fun h => ?_, fun h => ?_⟩,
          fun t f => ⟨fun h => ?_, fun h => ?_⟩,
          fun t f h => ?_, by rfl, by rfl⟩
  · simp [castField, staticCastFieldValueU, h]
  · simp [castField, staticCastFieldValueU, h]
  · simp [castField, staticCastFieldValueI, h]
  · simp [castField, staticCastFieldValueI, h]
  · simp [castField, staticCastFieldValueF, h]
  · simp [castField, staticCastFieldValueF, h]
  · cases f <;> first
      | rfl
      | simp [convertibleTo, Field.kind] at h

/-- C1 (witness). -/
theorem castField_round_trip_witness :
    IntTy.wrap ⟨false, 8⟩ ((300 : ℕ) : ℤ) ≠ ((300 : ℕ) : ℤ) ∧
    castField ⟨false, 8⟩ (.uint 300) =
      .error (.valueOutOfRange
        (outOfRangeMsg (renderField (.uint 300)) (FieldKind.typeName .uint)
          (IntTy.typeName ⟨false, 8⟩))) ∧
    IntTy.wrap ⟨false, 8⟩ ((100 : ℕ) : ℤ) = ((100 : ℕ) : ℤ) ∧
    castField ⟨false, 8⟩ (.uint 100) = .ok (IntTy.wrap ⟨false, 8⟩ 100) ∧
    convertibleTo (Field.str "x").kind = false ∧
    castField ⟨false, 8⟩ (.str "x") =
      .error (.typeMismatch
        (typeMismatchMsg (Field.str "x").kind.typeName (IntTy.typeName ⟨false, 8⟩))) :=
  ⟨by decide,
   (castField_round_trip.1 ⟨false, 8⟩ 300).2 (by decide),
   by decide,
   (castField_round_trip.1 ⟨false, 8⟩ 100).1 (by decide),
   by decide,
   castField_round_trip.2.2.2.1 ⟨false, 8⟩ (.str "x") (by decide)⟩

end ClickHouse
